import Mathlib

/-!
Verification of the TRPO calculator (`calc_1.py`): a lexical tokenizer, a
recursive-descent parser producing an AST, a tree-walking evaluator with a
configurable angle unit, and a `Calculator` facade.  Numbers are modelled by
exact rationals (`ℚ`): the Python code computes with IEEE doubles, whose
rounding is abstracted away, while every control-flow decision of the code
(equality with zero, sign tests, error raising and wrapping) is preserved
exactly.  The functions of the Python `math` module (`sin`, `cos`, ...) are
external to the repository and are modelled by an abstract record of
functions (`MathLib`).

The first section builds kernel-computable rational arithmetic (the Mathlib
`Rat` operations normalise through `Nat.gcd`, which does not reduce inside
`decide`); each operation is proved equal to the corresponding Mathlib
operation on `ℚ`, so theorem statements can use the standard symbols.
-/

deriving instance DecidableEq for Except

namespace TrpoCalc

/-- Structurally recursive Euclidean algorithm: `sgcdAux fuel a b` computes
`Nat.gcd a b` whenever `a < fuel`. -/
def sgcdAux : Nat → Nat → Nat → Nat
  | 0, _, b => b
  | _+1, 0, b => b
  | f+1, a+1, b => sgcdAux f (b % (a+1)) (a+1)

/-- Kernel-computable `Nat.gcd`. -/
def sgcd (a b : Nat) : Nat := sgcdAux (a+1) a b

theorem sgcdAux_eq (f a b : Nat) (h : a < f) : sgcdAux f a b = Nat.gcd a b := by
  induction f generalizing a b with
  | zero => omega
  | succ f ih =>
    match a with
    | 0 => simp [sgcdAux, Nat.gcd]
    | a+1 =>
      have hlt : b % (a+1) < f :=
        Nat.lt_of_lt_of_le (Nat.mod_lt b (Nat.succ_pos a)) (by omega)
      rw [sgcdAux, ih (b % (a+1)) (a+1) hlt]
      exact (Nat.gcd_rec (a+1) b).symm

theorem sgcd_eq (a b : Nat) : sgcd a b = Nat.gcd a b :=
  sgcdAux_eq _ _ _ (Nat.lt_succ_self a)

/-- Build the normalised rational `n / d` by explicit computation (sign split
plus `Nat` division), so that the kernel can evaluate it. -/
def qmake (n : Int) (d : Nat) : ℚ :=
  if d = 0 then 0
  else
    let g : Nat := sgcd n.natAbs d
    let m : Nat := n.natAbs / g
    let d2 : Nat := d / g
    if h1 : d2 = 0 then 0
    else if h2 : sgcd m d2 = 1 then
      if 0 ≤ n then
        ⟨(m : Int), d2, h1, by rw [sgcd_eq] at h2; simpa using h2⟩
      else
        ⟨-(m : Int), d2, h1, by rw [sgcd_eq] at h2; simpa [Int.natAbs_neg] using h2⟩
    else 0

theorem qmake_eq (n : Int) (d : Nat) : qmake n d = (n : ℚ) / (d : ℚ) := by
  unfold qmake
  by_cases hd : d = 0
  · simp [hd]
  · rw [if_neg hd]
    have hg : Nat.gcd n.natAbs d ≠ 0 := fun h => hd (Nat.eq_zero_of_gcd_eq_zero_right h)
    have hgd : Nat.gcd n.natAbs d ∣ d := Nat.gcd_dvd_right _ _
    have hgn : Nat.gcd n.natAbs d ∣ n.natAbs := Nat.gcd_dvd_left _ _
    have hgq : ((Nat.gcd n.natAbs d : ℚ)) ≠ 0 := Nat.cast_ne_zero.mpr hg
    have hdq : ((d : ℚ)) ≠ 0 := Nat.cast_ne_zero.mpr hd
    have hd2 : d / sgcd n.natAbs d ≠ 0 := by
      rw [sgcd_eq]
      exact (Nat.div_ne_zero_iff hg).mpr (Nat.le_of_dvd (Nat.pos_of_ne_zero hd) hgd)
    rw [dif_neg hd2]
    have hcop : sgcd (n.natAbs / sgcd n.natAbs d) (d / sgcd n.natAbs d) = 1 := by
      rw [sgcd_eq, sgcd_eq]
      exact Nat.coprime_div_gcd_div_gcd (Nat.pos_of_ne_zero hg)
    rw [dif_pos hcop]
    have hnum : ((n.natAbs / sgcd n.natAbs d : ℕ) : ℚ) / ((d / sgcd n.natAbs d : ℕ) : ℚ)
        = ((n.natAbs : ℚ)) / ((d : ℚ)) := by
      rw [sgcd_eq, Nat.cast_div hgn hgq, Nat.cast_div hgd hgq]
      field_simp
    by_cases hn : 0 ≤ n
    · rw [if_pos hn]
      refine ((Rat.num_div_den _).symm).trans ?_
      show (((n.natAbs / sgcd n.natAbs d : ℕ) : ℤ) : ℚ) / ((d / sgcd n.natAbs d : ℕ) : ℚ)
          = ((n : ℚ)) / ((d : ℚ))
      rw [Int.cast_natCast, hnum]
      congr 1
      rw [Int.cast_natAbs]
      exact_mod_cast abs_of_nonneg hn
    · rw [if_neg hn]
      refine ((Rat.num_div_den _).symm).trans ?_
      show ((-((n.natAbs / sgcd n.natAbs d : ℕ) : ℤ)) : ℚ) / ((d / sgcd n.natAbs d : ℕ) : ℚ)
          = ((n : ℚ)) / ((d : ℚ))
      rw [Int.cast_natCast, neg_div, hnum]
      rw [Int.cast_natAbs]
      have habs : (((|n| : ℤ)) : ℚ) = -((n : ℚ)) := by
        exact_mod_cast abs_of_nonpos (le_of_lt (lt_of_not_ge hn))
      rw [habs, neg_div, neg_neg]

/-- Kernel-computable addition on `ℚ` (proved equal to `+` below). -/
def qadd (a b : ℚ) : ℚ := qmake (a.num * b.den + b.num * a.den) (a.den * b.den)

/-- Kernel-computable subtraction on `ℚ`. -/
def qsub (a b : ℚ) : ℚ := qmake (a.num * b.den - b.num * a.den) (a.den * b.den)

/-- Kernel-computable multiplication on `ℚ`. -/
def qmul (a b : ℚ) : ℚ := qmake (a.num * b.num) (a.den * b.den)

/-- Kernel-computable inverse on `ℚ`. -/
def qinv (a : ℚ) : ℚ :=
  if a.num < 0 then qmake (-(a.den : Int)) a.num.natAbs
  else if 0 < a.num then qmake (a.den : Int) a.num.natAbs
  else 0

/-- Kernel-computable division on `ℚ`. -/
def qdiv (a b : ℚ) : ℚ := qmul a (qinv b)

/-- Kernel-computable natural power on `ℚ`. -/
def qpowN (a : ℚ) : Nat → ℚ
  | 0 => 1
  | n+1 => qmul a (qpowN a n)

/-- Kernel-computable integer power on `ℚ`. -/
def qpowZ (a : ℚ) (n : Int) : ℚ :=
  match n with
  | .ofNat m => qpowN a m
  | .negSucc m => qinv (qpowN a (m+1))

theorem qadd_eq (a b : ℚ) : qadd a b = a + b := by
  unfold qadd
  rw [qmake_eq]
  have ha : ((a.den : ℚ)) ≠ 0 := Nat.cast_ne_zero.mpr a.den_nz
  have hb : ((b.den : ℚ)) ≠ 0 := Nat.cast_ne_zero.mpr b.den_nz
  conv_rhs => rw [← Rat.num_div_den a, ← Rat.num_div_den b]
  rw [div_add_div _ _ ha hb]
  push_cast
  ring

theorem qsub_eq (a b : ℚ) : qsub a b = a - b := by
  unfold qsub
  rw [qmake_eq]
  have ha : ((a.den : ℚ)) ≠ 0 := Nat.cast_ne_zero.mpr a.den_nz
  have hb : ((b.den : ℚ)) ≠ 0 := Nat.cast_ne_zero.mpr b.den_nz
  conv_rhs => rw [← Rat.num_div_den a, ← Rat.num_div_den b]
  rw [div_sub_div _ _ ha hb]
  push_cast
  ring

theorem qmul_eq (a b : ℚ) : qmul a b = a * b := by
  unfold qmul
  rw [qmake_eq]
  conv_rhs => rw [← Rat.num_div_den a, ← Rat.num_div_den b]
  rw [div_mul_div_comm]
  push_cast
  ring

theorem qinv_eq (a : ℚ) : qinv a = a⁻¹ := by
  unfold qinv
  by_cases hneg : a.num < 0
  · rw [if_pos hneg, qmake_eq]
    have hq : ((a.num.natAbs : ℚ)) = -((a.num : ℚ)) := by
      rw [Int.cast_natAbs]
      exact_mod_cast abs_of_nonpos (le_of_lt hneg)
    conv_rhs => rw [← Rat.num_div_den a]
    rw [inv_div, hq]
    push_cast
    rw [div_neg, ← neg_div, neg_neg]
  · rw [if_neg hneg]
    by_cases hpos : 0 < a.num
    · rw [if_pos hpos, qmake_eq]
      have hq : ((a.num.natAbs : ℚ)) = ((a.num : ℚ)) := by
        rw [Int.cast_natAbs]
        exact_mod_cast abs_of_nonneg (le_of_lt hpos)
      conv_rhs => rw [← Rat.num_div_den a]
      rw [inv_div, hq]
      push_cast
      rfl
    · rw [if_neg hpos]
      have hz : a.num = 0 := by omega
      have : a = 0 := Rat.num_eq_zero.mp hz
      rw [this, inv_zero]

theorem qdiv_eq (a b : ℚ) : qdiv a b = a / b := by
  unfold qdiv
  rw [qmul_eq, qinv_eq, div_eq_mul_inv]

theorem qpowN_eq (a : ℚ) (n : Nat) : qpowN a n = a ^ n := by
  induction n with
  | zero => rfl
  | succ n ih => rw [qpowN, qmul_eq, ih, pow_succ, mul_comm]

theorem qpowZ_eq (a : ℚ) (n : Int) : qpowZ a n = a ^ n := by
  match n with
  | .ofNat m => rw [qpowZ, qpowN_eq]; exact (zpow_natCast a m).symm
  | .negSucc m => rw [qpowZ, qinv_eq, qpowN_eq]; exact (zpow_negSucc a m).symm

/-! ## Data model (Token, AST, errors) — `calc_1.py` lines 10-53 -/

/-- Token of the lexer (`Token` dataclass plus its `TokenType` tag).  The
`NUMBER` payload holds the literal value; decimal literals are modelled by
their exact rational value (IEEE rounding of Python `float` is abstracted). -/
inductive Token
  | num (value : ℚ)
  | op (value : Char)
  | fn (value : String)
  | const (value : String)
  | lparen
  | rparen
deriving DecidableEq

/-- AST node (`Number`, `BinOp`, `UnaryOp`, `FunctionCall` dataclasses). -/
inductive ASTNode
  | Number (value : ℚ)
  | BinOp (left : ASTNode) (op : Char) (right : ASTNode)
  | UnaryOp (op : Char) (operand : ASTNode)
  | FunctionCall (func : String) (arg : ASTNode)
deriving DecidableEq

/-- Exceptions that can escape `parse` or `evaluate`: the two calculator
exception classes, and `native` for any other Python exception (for example
the `ZeroDivisionError` raised by `0.0 ** -1.0`, or a `RecursionError`). -/
inductive PyExc
  | parserErr (msg : String)
  | evalErr (msg : String)
  | native (msg : String)
deriving DecidableEq

/-- What `Calculator.calculate` lets the caller observe: `ParserError` and
`EvaluationError` propagate unchanged; anything else is wrapped into the
generic `CalculatorError`. -/
inductive CalcError
  | parserErr (msg : String)
  | evalErr (msg : String)
  | calcErr (msg : String)
deriving DecidableEq

/-- The validated `angle_unit` configuration of `Evaluator`. -/
inductive AngleUnit
  | radian
  | degree
deriving DecidableEq

/-! ## Tokenizer — `Parser.tokenize`, `calc_1.py` lines 63-98 -/

/-- The `OPERATOR` character class `[+\-*/%^]`. -/
def opChars : List Char := ['+', '-', '*', '/', '%', '^']

/-- The `FUNCTION` alternatives, in regex order. -/
def funcNames : List String := ["sin", "cos", "tg", "ctg", "ln", "exp", "sqrt", "arctan"]

/-- The `CONSTANT` alternatives, in regex order. -/
def constNames : List String := ["pi", "e"]

/-- The IEEE double closest to pi, the exact value of Python `math.pi`. -/
def piFloat : ℚ := qmake 884279719003555 281474976710656

/-- The IEEE double closest to e, the exact value of Python `math.e`. -/
def eFloat : ℚ := qmake 6121026514868073 2251799813685248

/-- If the keyword is a prefix of the input, return the rest of the input. -/
def matchChars : List Char → List Char → Option (List Char)
  | [], cs => some cs
  | _ :: _, [] => none
  | k :: ks, c :: cs => if k = c then matchChars ks cs else none

/-- First name of the list that is a prefix of the input, with the rest of
the input (mirrors the left-to-right alternative preference of `re`). -/
def matchName : List String → List Char → Option (String × List Char)
  | [], _ => none
  | n :: ns, cs =>
    match matchChars n.data cs with
    | some rest => some (n, rest)
    | none => matchName ns cs

/-- Value of a string of decimal digits. -/
def digitsToNat (ds : List Char) : Nat :=
  ds.foldl (fun a c => 10 * a + (c.toNat - 48)) 0

/-- Scan an optional exponent part `[eE][+-]?\d+`; `none` when the exponent
group does not match (no digits after the marker), in which case the regex
backtracks and leaves the input untouched. -/
def scanExponent (cs : List Char) : Option (Int × List Char) :=
  match cs with
  | [] => none
  | c :: rest =>
    if c = 'e' ∨ c = 'E' then
      match rest with
      | [] => none
      | s :: r2 =>
        if s = '+' then
          match r2.span (fun x => x.isDigit) with
          | (ds, r3) => if ds = [] then none else some ((digitsToNat ds : Int), r3)
        else if s = '-' then
          match r2.span (fun x => x.isDigit) with
          | (ds, r3) => if ds = [] then none else some (-(digitsToNat ds : Int), r3)
        else
          match rest.span (fun x => x.isDigit) with
          | (ds, r3) => if ds = [] then none else some ((digitsToNat ds : Int), r3)
    else none

/-- Scan a numeric literal `\d+(\.\d*)?([eE][+-]?\d+)?` starting at the head
of the input (the head is known to be a digit) and return its exact value
with the remaining input. -/
def scanNumber (cs : List Char) : ℚ × List Char :=
  let s1 := cs.span (fun x => x.isDigit)
  let s2 : List Char × List Char :=
    match s1.2 with
    | '.' :: r => r.span (fun x => x.isDigit)
    | _ => ([], s1.2)
  let base : ℚ :=
    qadd ((digitsToNat s1.1 : ℚ)) (qdiv ((digitsToNat s2.1 : ℚ)) (qpowN 10 s2.1.length))
  match scanExponent s2.2 with
  | some (e, r3) => (qmul base (qpowZ 10 e), r3)
  | none => (base, s2.2)

/-- One token-spec pass of `Parser.tokenize`: at each position try, in the
priority order of `token_spec`, a numeric literal, an operator character, a
function name, a constant name, `(`, `)`, whitespace (skipped); any other
character raises `ParserError("Invalid character: <char>")`.  The fuel is
one more than the number of characters left and never runs out, since every
step consumes at least one character. -/
def tokenizeAux : Nat → List Char → Except PyExc (List Token)
  | _, [] => .ok []
  | 0, _ :: _ => .error (.native "maximum recursion depth exceeded")
  | fuel+1, c :: cs =>
    if c.isDigit then
      match scanNumber (c :: cs) with
      | (v, rest) => do
        let ts ← tokenizeAux fuel rest
        pure (Token.num v :: ts)
    else if c ∈ opChars then do
      let ts ← tokenizeAux fuel cs
      pure (Token.op c :: ts)
    else
      match matchName funcNames (c :: cs) with
      | some (n, rest) => do
        let ts ← tokenizeAux fuel rest
        pure (Token.fn n :: ts)
      | none =>
        match matchName constNames (c :: cs) with
        | some (n, rest) => do
          let ts ← tokenizeAux fuel rest
          pure (Token.const n :: ts)
        | none =>
          if c = '(' then do
            let ts ← tokenizeAux fuel cs
            pure (Token.lparen :: ts)
          else if c = ')' then do
            let ts ← tokenizeAux fuel cs
            pure (Token.rparen :: ts)
          else if c = ' ' ∨ c = '\t' ∨ c = '\n' then
            tokenizeAux fuel cs
          else
            .error (.parserErr ("Invalid character: " ++ c.toString))

/-- `Parser.tokenize`. -/
def tokenize (s : String) : Except PyExc (List Token) :=
  tokenizeAux (s.data.length + 1) s.data

/-! ## Parser — recursive descent, `calc_1.py` lines 100-172

The five mutually recursive methods plus their `while` loops are modelled as
one function over a rule tag, with a fuel argument decremented on every call
(standing for the Python call stack; `sys.setrecursionlimit(10000)`).  Each
rule returns the parsed node together with the tokens it did not consume:
the cursor-and-advance state of the Python parser in explicit form. -/

/-- Rule tag: which parser method is running.  `exprLoop`, `termLoop` and
`factorLoop` are the `while` loops inside `_parse_expression`, `_parse_term`
and `_parse_factor`, carrying the node folded so far. -/
inductive ParseRule
  | expr
  | exprLoop (node : ASTNode)
  | term
  | termLoop (node : ASTNode)
  | factor
  | factorLoop (node : ASTNode)
  | power
  | atom

/-- The recursive-descent core.  `expr`/`exprLoop` mirror
`_parse_expression` (left-folding `+`/`-`), `term`/`termLoop` mirror
`_parse_term` (left-folding `*`/`/`/`%`), `factor`/`factorLoop` mirror
`_parse_factor` (`^`, whose right operand recurses into the whole factor
rule, making `^` right-associative), `power` mirrors `_parse_power` (unary
minus, recursing into itself, hence binding tighter than `^`), and `atom`
mirrors `_parse_atom` including the inlined `_expect` checks.  A constant
token is replaced by its value from `self._constants`; a name outside that
table would raise a native `KeyError` (unreachable from `tokenize`). -/
def parseRun : Nat → ParseRule → List Token → Except PyExc (ASTNode × List Token)
  | 0, _, _ => .error (.native "maximum recursion depth exceeded")
  | fuel+1, r, ts =>
    match r with
    | .expr => do
      let (n, ts1) ← parseRun fuel .term ts
      parseRun fuel (.exprLoop n) ts1
    | .exprLoop n =>
      match ts with
      | .op c :: rest =>
        if c = '+' ∨ c = '-' then do
          let (rhs, ts2) ← parseRun fuel .term rest
          parseRun fuel (.exprLoop (.BinOp n c rhs)) ts2
        else .ok (n, ts)
      | _ => .ok (n, ts)
    | .term => do
      let (n, ts1) ← parseRun fuel .factor ts
      parseRun fuel (.termLoop n) ts1
    | .termLoop n =>
      match ts with
      | .op c :: rest =>
        if c = '*' ∨ c = '/' ∨ c = '%' then do
          let (rhs, ts2) ← parseRun fuel .factor rest
          parseRun fuel (.termLoop (.BinOp n c rhs)) ts2
        else .ok (n, ts)
      | _ => .ok (n, ts)
    | .factor => do
      let (n, ts1) ← parseRun fuel .power ts
      parseRun fuel (.factorLoop n) ts1
    | .factorLoop n =>
      match ts with
      | .op c :: rest =>
        if c = '^' then do
          let (rhs, ts2) ← parseRun fuel .factor rest
          parseRun fuel (.factorLoop (.BinOp n c rhs)) ts2
        else .ok (n, ts)
      | _ => .ok (n, ts)
    | .power =>
      match ts with
      | .op '-' :: rest => do
        let (n, ts2) ← parseRun fuel .power rest
        .ok (.UnaryOp '-' n, ts2)
      | _ => parseRun fuel .atom ts
    | .atom =>
      match ts with
      | [] => .error (.parserErr "Unexpected end of expression")
      | .num v :: rest => .ok (.Number v, rest)
      | .const name :: rest =>
        if name = "pi" then .ok (.Number piFloat, rest)
        else if name = "e" then .ok (.Number eFloat, rest)
        else .error (.native ("\x27" ++ name ++ "\x27"))
      | .fn f :: rest =>
        match rest with
        | .lparen :: r2 => do
          let (arg, r3) ← parseRun fuel .expr r2
          match r3 with
          | .rparen :: r4 => .ok (.FunctionCall f arg, r4)
          | _ => .error (.parserErr "Expected \x27)\x27 after function argument")
        | _ => .error (.parserErr "Expected \x27(\x27 after function name")
      | .lparen :: rest => do
        let (e, r2) ← parseRun fuel .expr rest
        match r2 with
        | .rparen :: r3 => .ok (e, r3)
        | _ => .error (.parserErr "Expected \x27)\x27 after expression")
      | .op c :: _ =>
        .error (.parserErr ("Expected number, function or parenthesis, got " ++ c.toString))
      | .rparen :: _ =>
        .error (.parserErr "Expected number, function or parenthesis, got )")

/-- Fuel that always suffices for `parseRun` on the given tokens: along any
call path, each step either consumes a token or moves down the five-level
rule hierarchy. -/
def parseFuel (ts : List Token) : Nat := 6 * ts.length + 8

/-- Entry into `_parse_expression` from `parse`. -/
def parseExpression (ts : List Token) : Except PyExc (ASTNode × List Token) :=
  parseRun (parseFuel ts) .expr ts

/-- `Parser.parse` after tokenization: run `_parse_expression` on the token
list and return its node, ignoring any tokens left unconsumed (the Python
method never checks `self._pos` afterwards). -/
def parseToks (ts : List Token) : Except PyExc ASTNode := do
  let (node, _) ← parseExpression ts
  pure node

/-- `Parser.parse`: tokenize, then recursive descent. -/
def parse (s : String) : Except PyExc ASTNode := do
  let ts ← tokenize s
  parseToks ts

/-! ## Evaluator — `Evaluator.evaluate`, `calc_1.py` lines 174-248 -/

/-- The functions the evaluator takes from the Python `math` module, plus
`powFrac` for `left ** right` with a non-integer exponent.  They are
external to the repository, so the development is parameterised over them:
every theorem below holds for an arbitrary interpretation. -/
structure MathLib where
  sin : ℚ → ℚ
  cos : ℚ → ℚ
  tan : ℚ → ℚ
  atan : ℚ → ℚ
  log : ℚ → ℚ
  exp : ℚ → ℚ
  sqrt : ℚ → ℚ
  radians : ℚ → ℚ
  powFrac : ℚ → ℚ → ℚ

/-- Mirrors `math.radians(arg) if self.angle_unit == degree else arg`. -/
def angleIn (M : MathLib) (u : AngleUnit) (v : ℚ) : ℚ :=
  if u = AngleUnit.degree then M.radians v else v

/-- Python `left ** right` on floats, for the `'^'` case.  An integer
exponent is evaluated exactly (`Rat` power in place of the correctly
rounded double result); `0.0` to a negative power raises the native
`ZeroDivisionError`, which the surrounding `except OverflowError` does not
catch.  A non-integer exponent is delegated to the abstract
`MathLib.powFrac`.  The `abs(result) == float(inf)` overflow check of the
code cannot fire in the exact rational model and is omitted. -/
def powFloat (M : MathLib) (l r : ℚ) : Except PyExc ℚ :=
  if r.den = 1 then
    if l = 0 ∧ r < 0 then .error (.native "0.0 cannot be raised to a negative power")
    else .ok (qpowZ l r.num)
  else .ok (M.powFrac l r)

/-- `Evaluator.evaluate`: structural walk of the AST.  The `if/elif` chains
of the Python method are mirrored in order; a `BinOp` whose operator matches
no branch (only `'%'` can reach this) and a `FunctionCall` whose name
matches no branch fall through to the final
`raise EvaluationError(f"Unknown node type: {type(node)}")` (the Python
rendering of the class object is abbreviated to the class name).  The
`exp` branch omits the overflow check for the same reason as `powFloat`. -/
def evaluate (M : MathLib) (u : AngleUnit) : ASTNode → Except PyExc ℚ
  | .Number v => .ok v
  | .BinOp l op r => do
    let left ← evaluate M u l
    let right ← evaluate M u r
    if op = '+' then .ok (qadd left right)
    else if op = '-' then .ok (qsub left right)
    else if op = '*' then .ok (qmul left right)
    else if op = '/' then
      if right = 0 then .error (.evalErr "Division by zero")
      else .ok (qdiv left right)
    else if op = '^' then powFloat M left right
    else .error (.evalErr "Unknown node type: BinOp")
  | .UnaryOp op a => do
    let operand ← evaluate M u a
    .ok (if op = '-' then -operand else operand)
  | .FunctionCall f a => do
    let arg ← evaluate M u a
    if f = "sin" then .ok (M.sin (angleIn M u arg))
    else if f = "cos" then .ok (M.cos (angleIn M u arg))
    else if f = "tg" then .ok (M.tan (angleIn M u arg))
    else if f = "ctg" then
      let t := M.tan (angleIn M u arg)
      if t = 0 then .error (.evalErr "Cotangent is undefined")
      else .ok (qdiv 1 t)
    else if f = "arctan" then
      let res := M.atan arg
      .ok (if u = AngleUnit.degree then qdiv (qmul res 180) piFloat else res)
    else if f = "ln" then
      if arg ≤ 0 then .error (.evalErr "Logarithm is only defined for positive numbers")
      else .ok (M.log arg)
    else if f = "exp" then .ok (M.exp arg)
    else if f = "sqrt" then
      if arg < 0 then .error (.evalErr "Square root is only defined for non-negative numbers")
      else .ok (M.sqrt arg)
    else .error (.evalErr "Unknown node type: FunctionCall")

/-! ## Calculator facade and Evaluator construction — `calc_1.py` lines 174-262 -/

/-- The `try/except` policy of `Calculator.calculate`: `CalculatorError`
subclasses re-raise unchanged, anything else becomes
`CalculatorError(f"Unexpected error: {str(e)}")`. -/
def wrapExc : PyExc → CalcError
  | .parserErr m => .parserErr m
  | .evalErr m => .evalErr m
  | .native m => .calcErr ("Unexpected error: " ++ m)

/-- `Calculator.calculate`: parse, then evaluate, with the facade exception
policy. -/
def calculate (M : MathLib) (u : AngleUnit) (s : String) : Except CalcError ℚ :=
  match (do
    let ast ← parse s
    evaluate M u ast : Except PyExc ℚ) with
  | .ok v => .ok v
  | .error e => .error (wrapExc e)

/-- ASCII lowercasing of a character, as Python `str.lower` acts on the
ASCII strings relevant to `angle_unit`. -/
def lowerChar (c : Char) : Char :=
  if 'A' ≤ c ∧ c ≤ 'Z' then Char.ofNat (c.toNat + 32) else c

/-- ASCII `str.lower`. -/
def strLower (s : String) : String := String.mk (s.data.map lowerChar)

/-- `Evaluator.__init__`: lowercase the `angle_unit` option, then accept
exactly `radian` and `degree`; anything else raises `ValueError` (failing
construction, before any calculation). -/
def evaluatorInit (angle_unit : String) : Except String AngleUnit :=
  let a := strLower angle_unit
  if a = "radian" then .ok AngleUnit.radian
  else if a = "degree" then .ok AngleUnit.degree
  else .error "angle_unit must be either \x27radian\x27 or \x27degree\x27"

/-- A concrete `MathLib` interpretation, used only to instantiate witnesses
of universally quantified theorems. -/
def mathDummy : MathLib :=
  ⟨fun _ => 0, fun _ => 0, fun _ => 0, fun _ => 0, fun _ => 0, fun _ => 0,
    fun _ => 0, fun _ => 0, fun _ _ => 0⟩

/-! ## Claims -/

/-- Reduction of the `Except` monad bind on a success value. -/
theorem exceptOkBind {ε α β : Type} (a : α) (f : α → Except ε β) :
    (Except.ok a : Except ε α) >>= f = f a := rfl

/-- Claim C1: multiplicative operators bind tighter than additive ones and
parentheses override precedence — `a+b*c` parses as `a+(b*c)`, `(a+b)*c`
keeps the explicit grouping, and `calculate("2+3*4") = 14` while
`calculate("(2+3)*4") = 20` for every math-library interpretation and angle
unit. -/
theorem claim_C1_precedence_and_parens :
    (∀ a b c : ℚ,
      parseToks [.num a, .op '+', .num b, .op '*', .num c]
        = .ok (.BinOp (.Number a) '+' (.BinOp (.Number b) '*' (.Number c)))) ∧
    (∀ a b c : ℚ,
      parseToks [.lparen, .num a, .op '+', .num b, .rparen, .op '*', .num c]
        = .ok (.BinOp (.BinOp (.Number a) '+' (.Number b)) '*' (.Number c))) ∧
    (∀ M : MathLib, ∀ u : AngleUnit,
      calculate M u "2+3*4" = .ok 14 ∧ calculate M u "(2+3)*4" = .ok 20) :=
  ⟨fun _ _ _ => rfl, fun _ _ _ => rfl, fun _ _ => ⟨rfl, rfl⟩⟩

/-- Claim C2: `^` is right-associative (`a^b^c` parses as `a^(b^c)`, so
`calculate("2^3^2") = 512`) and unary minus binds tighter than `^`
(`-a^b` parses as `(-a)^b`, so `calculate("-2^2") = 4`). -/
theorem claim_C2_power_right_assoc_unary_minus :
    (∀ a b c : ℚ,
      parseToks [.num a, .op '^', .num b, .op '^', .num c]
        = .ok (.BinOp (.Number a) '^' (.BinOp (.Number b) '^' (.Number c)))) ∧
    (∀ a b : ℚ,
      parseToks [.op '-', .num a, .op '^', .num b]
        = .ok (.BinOp (.UnaryOp '-' (.Number a)) '^' (.Number b))) ∧
    parse "-2^2" = .ok (.BinOp (.UnaryOp '-' (.Number 2)) '^' (.Number 2)) ∧
    (∀ M : MathLib, ∀ u : AngleUnit,
      calculate M u "2^3^2" = .ok 512 ∧ calculate M u "-2^2" = .ok 4) :=
  ⟨fun _ _ _ => rfl, fun _ _ => rfl, rfl, fun _ _ => ⟨rfl, rfl⟩⟩

set_option maxRecDepth 100000 in
/-- Claim C3: evaluating a `'/'` `BinOp` whose operands evaluate to `vl` and
`vr` fails with `EvaluationError("Division by zero")` exactly when `vr = 0`
(an exact equality test) and returns `vl / vr` otherwise; in particular
`calculate("1/1e-300")` succeeds while `calculate("1/0")` fails with that
`EvaluationError`. -/
theorem claim_C3_division_by_zero (M : MathLib) (u : AngleUnit)
    (l r : ASTNode) (vl vr : ℚ)
    (hl : evaluate M u l = .ok vl) (hr : evaluate M u r = .ok vr) :
    (evaluate M u (.BinOp l '/' r)
      = if vr = 0 then .error (.evalErr "Division by zero") else .ok (vl / vr)) ∧
    (evaluate M u (.BinOp l '/' r) = .error (.evalErr "Division by zero") ↔ vr = 0) ∧
    (∃ v, calculate M u "1/1e-300" = .ok v) ∧
    calculate M u "1/0" = .error (.evalErr "Division by zero") := by
  have hmain : evaluate M u (.BinOp l '/' r)
      = if vr = 0 then .error (.evalErr "Division by zero") else .ok (vl / vr) := by
    by_cases hz : vr = 0
    · simp [evaluate, hl, hr, hz, exceptOkBind]
    · simp [evaluate, hl, hr, hz, qdiv_eq, exceptOkBind]
  refine ⟨hmain, ?_, ⟨_, rfl⟩, rfl⟩
  rw [hmain]
  by_cases hz : vr = 0 <;> simp [hz]

/-- Witness for C3 at `l = Number 1`, `r = Number 0`. -/
theorem claim_C3_division_by_zero_witness :
    (evaluate mathDummy .radian (.Number 1) = .ok 1
      ∧ evaluate mathDummy .radian (.Number 0) = .ok 0) ∧
    (evaluate mathDummy .radian (.BinOp (.Number 1) '/' (.Number 0))
      = .error (.evalErr "Division by zero") ↔ (0 : ℚ) = 0) :=
  ⟨⟨rfl, rfl⟩,
    (claim_C3_division_by_zero mathDummy .radian (.Number 1) (.Number 0) 1 0 rfl rfl).2.1⟩

/-- Claim C4: `%` is tokenized as an operator, parsed at the same precedence
level as `*` and `/` (by `_parse_term`), but the evaluator has no case for
it: a `'%'` `BinOp` whose operands evaluate successfully falls through to
the `EvaluationError("Unknown node type: ...")` raise, and
`calculate("5%2")` fails with that `EvaluationError`. -/
theorem claim_C4_modulo_gap (M : MathLib) (u : AngleUnit)
    (l r : ASTNode) (vl vr : ℚ)
    (hl : evaluate M u l = .ok vl) (hr : evaluate M u r = .ok vr) :
    tokenize "5%2" = .ok [.num 5, .op '%', .num 2] ∧
    (∀ a b : ℚ,
      parseToks [.num a, .op '%', .num b] = .ok (.BinOp (.Number a) '%' (.Number b))) ∧
    evaluate M u (.BinOp l '%' r) = .error (.evalErr "Unknown node type: BinOp") ∧
    calculate M u "5%2" = .error (.evalErr "Unknown node type: BinOp") := by
  refine ⟨rfl, fun _ _ => rfl, ?_, rfl⟩
  simp [evaluate, hl, hr, exceptOkBind]

/-- Witness for C4 at `l = Number 5`, `r = Number 2`. -/
theorem claim_C4_modulo_gap_witness :
    (evaluate mathDummy .radian (.Number 5) = .ok 5
      ∧ evaluate mathDummy .radian (.Number 2) = .ok 2) ∧
    evaluate mathDummy .radian (.BinOp (.Number 5) '%' (.Number 2))
      = .error (.evalErr "Unknown node type: BinOp") :=
  ⟨⟨rfl, rfl⟩,
    (claim_C4_modulo_gap mathDummy .radian (.Number 5) (.Number 2) 5 2 rfl rfl).2.2.1⟩

/-- A character position at which none of the token patterns of
`Parser.tokenize` matches: not a digit, not an operator, no function or
constant name starts here, not a parenthesis, not whitespace. -/
def noTokenMatch (c : Char) (cs : List Char) : Prop :=
  c.isDigit = false ∧ c ∉ opChars ∧ matchName funcNames (c :: cs) = none ∧
  matchName constNames (c :: cs) = none ∧
  c ≠ '(' ∧ c ≠ ')' ∧ c ≠ ' ' ∧ c ≠ '\t' ∧ c ≠ '\n'

instance (c : Char) (cs : List Char) : Decidable (noTokenMatch c cs) := by
  unfold noTokenMatch
  infer_instance

/-- Claim C5: malformed input fails with `ParserError`: a character matching
no token pattern fails tokenization with `Invalid character: <char>` (also
mid-string, as in `2+@`); an exhausted token stream where an atom is
required — empty input, or `2/` — fails with
`Unexpected end of expression`; and a missing closing parenthesis, function
opening parenthesis, or function closing parenthesis fails with the
corresponding expectation message. -/
theorem claim_C5_malformed_input (c : Char) (cs : List Char)
    (h : noTokenMatch c cs) :
    tokenize (String.mk (c :: cs))
      = .error (.parserErr ("Invalid character: " ++ c.toString)) ∧
    tokenize "2+@" = .error (.parserErr "Invalid character: @") ∧
    parse "" = .error (.parserErr "Unexpected end of expression") ∧
    parse "2/" = .error (.parserErr "Unexpected end of expression") ∧
    parse "1 + (2 * 3" = .error (.parserErr "Expected \x27)\x27 after expression") ∧
    parse "sin" = .error (.parserErr "Expected \x27(\x27 after function name") ∧
    parse "sin(2" = .error (.parserErr "Expected \x27)\x27 after function argument") := by
  obtain ⟨h1, h2, h3, h4, h5, h6, h7, h8, h9⟩ := h
  refine ⟨?_, by decide, by decide, by decide, by decide, by decide, by decide⟩
  show tokenizeAux (cs.length + 1 + 1) (c :: cs) = _
  rw [tokenizeAux]
  simp [h1, h2, h3, h4, h5, h6, h7, h8, h9]

/-- Witness for C5 at the character `@`. -/
theorem claim_C5_malformed_input_witness :
    noTokenMatch '@' [] ∧
    tokenize (String.mk ['@']) = .error (.parserErr "Invalid character: @") :=
  ⟨by decide, (claim_C5_malformed_input '@' [] (by decide)).1⟩

/-- Claim C6: `ln` fails with
`EvaluationError("Logarithm is only defined for positive numbers")` exactly
when its evaluated argument is not `> 0` (the code tests `arg <= 0`), and
`sqrt` fails with
`EvaluationError("Square root is only defined for non-negative numbers")`
exactly when its evaluated argument is `< 0`; `calculate("ln(-1)")` and
`calculate("sqrt(-1)")` fail accordingly. -/
theorem claim_C6_ln_sqrt_domains (M : MathLib) (u : AngleUnit)
    (a : ASTNode) (v : ℚ) (ha : evaluate M u a = .ok v) :
    (evaluate M u (.FunctionCall "ln" a)
      = if v ≤ 0
        then .error (.evalErr "Logarithm is only defined for positive numbers")
        else .ok (M.log v)) ∧
    (evaluate M u (.FunctionCall "ln" a)
      = .error (.evalErr "Logarithm is only defined for positive numbers") ↔ ¬ 0 < v) ∧
    (evaluate M u (.FunctionCall "sqrt" a)
      = if v < 0
        then .error (.evalErr "Square root is only defined for non-negative numbers")
        else .ok (M.sqrt v)) ∧
    (evaluate M u (.FunctionCall "sqrt" a)
      = .error (.evalErr "Square root is only defined for non-negative numbers") ↔ v < 0) ∧
    calculate M u "ln(-1)"
      = .error (.evalErr "Logarithm is only defined for positive numbers") ∧
    calculate M u "sqrt(-1)"
      = .error (.evalErr "Square root is only defined for non-negative numbers") := by
  have hln : evaluate M u (.FunctionCall "ln" a)
      = if v ≤ 0
        then .error (.evalErr "Logarithm is only defined for positive numbers")
        else .ok (M.log v) := by
    by_cases hz : v ≤ 0 <;> simp [evaluate, ha, hz, exceptOkBind]
  have hsqrt : evaluate M u (.FunctionCall "sqrt" a)
      = if v < 0
        then .error (.evalErr "Square root is only defined for non-negative numbers")
        else .ok (M.sqrt v) := by
    by_cases hz : v < 0 <;> simp [evaluate, ha, hz, exceptOkBind]
  refine ⟨hln, ?_, hsqrt, ?_, rfl, rfl⟩
  · rw [hln, not_lt]
    by_cases hz : v ≤ 0 <;> simp [hz]
  · rw [hsqrt]
    by_cases hz : v < 0 <;> simp [hz]

/-- Witness for C6 at `a = Number 1`. -/
theorem claim_C6_ln_sqrt_domains_witness :
    evaluate mathDummy .radian (.Number 1) = .ok 1 ∧
    (evaluate mathDummy .radian (.FunctionCall "sqrt" (.Number 1))
      = .error (.evalErr "Square root is only defined for non-negative numbers")
      ↔ (1 : ℚ) < 0) :=
  ⟨rfl,
    (claim_C6_ln_sqrt_domains mathDummy .radian (.Number 1) 1 rfl).2.2.2.1⟩

/-- Claim C7: with `angle_unit = degree` the functions `sin`, `cos` and `tg`
convert their argument from degrees to radians before applying the
underlying math function, and in the default radian mode they apply it
directly (so `sin(90)` in degree mode and `sin(pi/2)` in radian mode both
reduce to the sine of the right-angle value); `arctan` never converts its
argument and instead converts its result from radians to degrees in degree
mode. -/
theorem claim_C7_angle_units (M : MathLib) (a b : ASTNode) (v w : ℚ)
    (hdeg : evaluate M .degree a = .ok v) (hrad : evaluate M .radian b = .ok w) :
    evaluate M .degree (.FunctionCall "sin" a) = .ok (M.sin (M.radians v)) ∧
    evaluate M .degree (.FunctionCall "cos" a) = .ok (M.cos (M.radians v)) ∧
    evaluate M .degree (.FunctionCall "tg" a) = .ok (M.tan (M.radians v)) ∧
    evaluate M .radian (.FunctionCall "sin" b) = .ok (M.sin w) ∧
    evaluate M .radian (.FunctionCall "cos" b) = .ok (M.cos w) ∧
    evaluate M .radian (.FunctionCall "tg" b) = .ok (M.tan w) ∧
    evaluate M .degree (.FunctionCall "arctan" a) = .ok (M.atan v * 180 / piFloat) ∧
    evaluate M .radian (.FunctionCall "arctan" b) = .ok (M.atan w) ∧
    calculate M .degree "sin(90)" = .ok (M.sin (M.radians 90)) ∧
    calculate M .radian "sin(pi/2)" = .ok (M.sin (piFloat / 2)) := by
  refine ⟨?_, ?_, ?_, ?_, ?_, ?_, ?_, ?_, rfl, ?_⟩
  · simp [evaluate, hdeg, angleIn, exceptOkBind]
  · simp [evaluate, hdeg, angleIn, exceptOkBind]
  · simp [evaluate, hdeg, angleIn, exceptOkBind]
  · simp [evaluate, hrad, angleIn, exceptOkBind]
  · simp [evaluate, hrad, angleIn, exceptOkBind]
  · simp [evaluate, hrad, angleIn, exceptOkBind]
  · simp [evaluate, hdeg, qdiv_eq, qmul_eq, mul_comm, exceptOkBind]
  · simp [evaluate, hrad, exceptOkBind]
  · have hrun : calculate M .radian "sin(pi/2)" = .ok (M.sin (qdiv piFloat 2)) := rfl
    rw [hrun, qdiv_eq]

/-- Witness for C7 at `a = b = Number 0`. -/
theorem claim_C7_angle_units_witness :
    (evaluate mathDummy .degree (.Number 0) = .ok 0
      ∧ evaluate mathDummy .radian (.Number 0) = .ok 0) ∧
    evaluate mathDummy .degree (.FunctionCall "sin" (.Number 0))
      = .ok (mathDummy.sin (mathDummy.radians 0)) :=
  ⟨⟨rfl, rfl⟩,
    (claim_C7_angle_units mathDummy (.Number 0) (.Number 0) 0 0 rfl rfl).1⟩

/-- Claim C8: `parse` never checks that the token stream was fully consumed:
whenever `_parse_expression` succeeds, `parse` succeeds with the node of the
parsed prefix whatever tokens remain, so `calculate("1)") = 1` and
`calculate("2 3") = 2` instead of failing. -/
theorem claim_C8_trailing_tokens (ts : List Token) (node : ASTNode)
    (rest : List Token) (h : parseExpression ts = .ok (node, rest)) :
    parseToks ts = .ok node ∧
    parse "1)" = .ok (.Number 1) ∧
    parse "2 3" = .ok (.Number 2) ∧
    (∀ M : MathLib, ∀ u : AngleUnit,
      calculate M u "1)" = .ok 1 ∧ calculate M u "2 3" = .ok 2) := by
  refine ⟨?_, rfl, rfl, fun _ _ => ⟨rfl, rfl⟩⟩
  simp [parseToks, h]

/-- Witness for C8 at the input `1)`. -/
theorem claim_C8_trailing_tokens_witness :
    parseExpression [.num 1, .rparen] = .ok (.Number 1, [.rparen]) ∧
    parseToks [.num 1, .rparen] = .ok (.Number 1) :=
  ⟨by decide,
    (claim_C8_trailing_tokens [.num 1, .rparen] (.Number 1) [.rparen] (by decide)).1⟩

/-- Claim C9: the facade maps the outcome of parse-then-evaluate so that
`ParserError` and `EvaluationError` pass through unchanged and every other
exception is wrapped into `CalculatorError("Unexpected error: <msg>")`; in
particular `calculate("0^(-1)")`, whose native `ZeroDivisionError` escapes
the `except OverflowError` handler of the `^` case, surfaces as that
generic wrapped error. -/
theorem claim_C9_facade_errors (M : MathLib) (u : AngleUnit) (s : String) :
    (calculate M u s =
      match (do
        let ast ← parse s
        evaluate M u ast : Except PyExc ℚ) with
      | .ok v => .ok v
      | .error (.parserErr m) => .error (.parserErr m)
      | .error (.evalErr m) => .error (.evalErr m)
      | .error (.native m) => .error (.calcErr ("Unexpected error: " ++ m))) ∧
    calculate M u "0^(-1)"
      = .error (.calcErr "Unexpected error: 0.0 cannot be raised to a negative power") := by
  constructor
  · cases hp : (do
        let ast ← parse s
        evaluate M u ast : Except PyExc ℚ) with
    | ok v => simp [calculate, hp]
    | error e => cases e <;> simp [calculate, wrapExc, hp]
  · rfl

/-- Claim C10: `Evaluator` construction lowercases the `angle_unit` string
before validating it, so the accepted values are exactly the strings whose
lowercase form is `radian` or `degree` — any capitalization such as
`DEGREE` or `Radian` is accepted and maps to the same unit — and every
other string fails construction with the `ValueError` message. -/
theorem claim_C10_angle_unit_case_insensitive (s : String) :
    (evaluatorInit s = .ok AngleUnit.radian ↔ strLower s = "radian") ∧
    (evaluatorInit s = .ok AngleUnit.degree ↔ strLower s = "degree") ∧
    (evaluatorInit s
        = .error "angle_unit must be either \x27radian\x27 or \x27degree\x27"
      ↔ (strLower s ≠ "radian" ∧ strLower s ≠ "degree")) ∧
    evaluatorInit "DEGREE" = .ok AngleUnit.degree ∧
    evaluatorInit "Radian" = .ok AngleUnit.radian ∧
    evaluatorInit "dEgReE" = .ok AngleUnit.degree ∧
    evaluatorInit "radian" = .ok AngleUnit.radian ∧
    evaluatorInit "gradian"
      = .error "angle_unit must be either \x27radian\x27 or \x27degree\x27" := by
  refine ⟨?_, ?_, ?_, by decide, by decide, by decide, by decide, by decide⟩ <;>
    by_cases hr : strLower s = "radian" <;>
      by_cases hd : strLower s = "degree" <;>
        simp [evaluatorInit, hr, hd]

end TrpoCalc
